import Mathlib

/-!
Verification development for the LibreX browser shell (`src/browser.py`).

Python strings are modelled as `String` / `List Char` (one `Char` per code
point, matching Python's `len` and slicing).  The shallow embedding below
translates, from the source:

* `str.strip` / `str.lower` / `str.startswith` (`pyStripL`, `pyLower`, ...);
* the `key=value` config parser shared verbatim by
  `load_search_engine_config`, `set_favicon` and `load_shortcuts`
  (lines 26-118), including its warning log and Python-`dict` insertion;
* the module-level configured values with their hardcoded defaults
  (lines 153-172 and the `shortcuts.get` / favicon defaults);
* the URL-bar normalisation of `Browser.on_url_entered` (lines 388-417)
  and the scheme check of `NavigationTask.run` (lines 131-148);
* the UI-state transitions `Browser.on_navigation_result`,
  `Browser.close_current_tab` and `Browser.truncate_title`.

Qt's `QUrl` is third-party code with no source in this repository; it is
modelled by `qurlScheme` / `qurlIsValid` below (RFC 3986 scheme parsing,
tolerant validity), with the URL text carried verbatim (QUrl
normalisation such as percent-encoding is not modelled).
-/

namespace LibreX

/-- ASCII whitespace recognised by Python's `str.strip()` (space, tab,
newline, carriage return, vertical tab, form feed). -/
def pyIsSpace (c : Char) : Bool :=
  c = ' ' || c = '\t' || c = '\n' || c = '\r' || c = '\x0b' || c = '\x0c'

/-- Left part of Python `str.strip()` on a list of characters. -/
def lstripL (l : List Char) : List Char := l.dropWhile pyIsSpace

/-- Right part of Python `str.strip()` on a list of characters. -/
def rstripL (l : List Char) : List Char := (l.reverse.dropWhile pyIsSpace).reverse

/-- Python `str.strip()` on a list of characters. -/
def pyStripL (l : List Char) : List Char := rstripL (lstripL l)

/-- Python `str.strip()`. -/
def pyStrip (s : String) : String := ⟨pyStripL s.data⟩

/-- Python `str.lower()` (ASCII case folding, which is all the program uses). -/
def pyLower (s : String) : String := ⟨s.data.map Char.toLower⟩

/-- Python `cleaned_line.split('=', 1)`: the text before the first `'='`
and the entire remainder after it (which may itself contain `'='`). -/
def splitEq1 : List Char → List Char × List Char
  | [] => ([], [])
  | c :: cs => if c = '=' then ([], cs) else ((c :: (splitEq1 cs).1), (splitEq1 cs).2)

/-- Outcome of one line of the config parser (browser.py lines 36-53):
skipped silently (blank or `#` comment), skipped with a warning log
(no `'='`, or empty key/value after stripping), or a key/value entry. -/
inductive LineClass where
  | skip : LineClass
  | malformed : LineClass
  | entry : List Char → List Char → LineClass
  deriving DecidableEq

/-- Classification of one config line, translated from
`load_search_engine_config` (browser.py lines 36-51): strip the line,
skip blanks and `#` comments, warn when `'='` is absent, split at the
first `'='`, strip key and value, and warn when either is empty. -/
def classifyLine (l : List Char) : LineClass :=
  match pyStripL l with
  | [] => LineClass.skip
  | c :: cs =>
    if c = '#' then LineClass.skip
    else if (c :: cs).contains '=' = false then LineClass.malformed
    else
      let k := pyStripL (splitEq1 (c :: cs)).1
      let v := pyStripL (splitEq1 (c :: cs)).2
      if k ≠ [] ∧ v ≠ [] then LineClass.entry k v else LineClass.malformed

/-- Python `dict` assignment `d[k] = v`: overwrite in place when the key
exists, otherwise append (insertion order preserved). -/
def dictInsert (m : List (List Char × List Char)) (k v : List Char) :
    List (List Char × List Char) :=
  if m.any (fun p => p.1 == k) then
    m.map (fun p => if p.1 == k then (k, v) else p)
  else m ++ [(k, v)]

/-- Python `dict.get(k, d)`. -/
def dictGetD (m : List (List Char × List Char)) (k d : List Char) : List Char :=
  match m.find? (fun p => p.1 == k) with
  | some p => p.2
  | none => d

/-- One step of the config-loading fold: state is the dict built so far
together with the list of stripped lines that were warned about. -/
def loadConfigStep (st : List (List Char × List Char) × List (List Char))
    (line : List Char) : List (List Char × List Char) × List (List Char) :=
  match classifyLine line with
  | LineClass.skip => st
  | LineClass.malformed => (st.1, st.2 ++ [pyStripL line])
  | LineClass.entry k v => (dictInsert st.1 k v, st.2)

/-- `load_search_engine_config` (browser.py lines 26-56) applied to the
lines of a file: returns the parsed dict and the warning log.
`set_favicon` (lines 57-87) and `load_shortcuts` (lines 88-118) are
line-for-line copies of the same parser and are modelled by this same
function. -/
def load_search_engine_config (lines : List (List Char)) :
    List (List Char × List Char) × List (List Char) :=
  lines.foldl loadConfigStep ([], [])

/-- Loading a config file whose content is `none` when the file is absent:
a missing file yields an empty dict and an error log entry, never a
failure (browser.py lines 29-31). -/
def load_config_from_file (file : Option (List (List Char))) :
    List (List Char × List Char) × List (List Char) :=
  match file with
  | none => ([], ["config file not found".data])
  | some lines => load_search_engine_config lines

/-- Module-level `default_search_engine` (browser.py lines 158-162):
the configured value, falling back to `https://duckduckgo.com`. -/
def default_search_engine (file : Option (List (List Char))) : String :=
  ⟨dictGetD (load_config_from_file file).1 ("default_search_engine".data)
    ("https://duckduckgo.com".data)⟩

/-- Module-level `default_search_engine_search_path` (lines 163-167):
the configured value, falling back to `/?q=`. -/
def default_search_engine_search_path (file : Option (List (List Char))) : String :=
  ⟨dictGetD (load_config_from_file file).1
    ("default_search_engine_search_path".data) ("/?q=".data)⟩

/-- Module-level `browser_favicon_path` (line 154): the configured value,
falling back to `browser/assets/icons/favicons/favicon.ico`. -/
def browser_favicon_path (file : Option (List (List Char))) : String :=
  ⟨dictGetD (load_config_from_file file).1 ("favicon".data)
    ("browser/assets/icons/favicons/favicon.ico".data)⟩

/-- `shortcuts.get("new_tab", "Ctrl+T")` (browser.py line 178). -/
def new_tab_shortcut (file : Option (List (List Char))) : String :=
  ⟨dictGetD (load_config_from_file file).1 ("new_tab".data)
    ("Ctrl+T".data)⟩

/-- `shortcuts.get("close_tab", "Ctrl+W")` (browser.py line 183). -/
def close_tab_shortcut (file : Option (List (List Char))) : String :=
  ⟨dictGetD (load_config_from_file file).1 ("close_tab".data)
    ("Ctrl+W".data)⟩

/-- `shortcuts.get("close_browser", "Ctrl+Shift+W")` (browser.py line 188). -/
def close_browser_shortcut (file : Option (List (List Char))) : String :=
  ⟨dictGetD (load_config_from_file file).1 ("close_browser".data)
    ("Ctrl+Shift+W".data)⟩

/-- Characters allowed inside a URL scheme after the first letter
(RFC 3986: letters, digits, `+`, `-`, `.`), as parsed by Qt's `QUrl`. -/
def isSchemeChar (c : Char) : Bool :=
  c.isAlpha || c.isDigit || c = '+' || c = '-' || c = '.'

/-- Scan for the `':'` that terminates a scheme, collecting scheme
characters; fails when a non-scheme character appears before any `':'`. -/
def schemeScan : List Char → List Char → Option (List Char)
  | _, [] => none
  | acc, c :: cs =>
    if c = ':' then some acc.reverse
    else if isSchemeChar c then schemeScan (c :: acc) cs
    else none

/-- Model of `QUrl(s).scheme()`: the (lower-cased) text before the first
`':'` when it is a well-formed RFC 3986 scheme (a letter followed by
scheme characters), and `""` otherwise. -/
def qurlScheme (s : String) : String :=
  match s.data with
  | [] => ""
  | c :: cs =>
    if c.isAlpha then
      match schemeScan [c] cs with
      | some l => ⟨l.map Char.toLower⟩
      | none => ""
    else ""

/-- Model of `QUrl(s).isValid()`: QUrl's tolerant parser accepts every
non-empty input string arising here (pathological inputs such as
unbalanced brackets are not modelled). -/
def qurlIsValid (s : String) : Bool := !s.data.isEmpty

/-- `user_input_lower.startswith(("http://", "https://"))`
(browser.py line 403). -/
def startsWithHttpScheme (s : String) : Bool :=
  "http://".data.isPrefixOf s.data || "https://".data.isPrefixOf s.data

/-- `'.' in user_input` (browser.py line 403). -/
def containsDot (s : String) : Bool := s.data.contains '.'

/-- The rewrite applied by `Browser.on_url_entered` (lines 402-404) to the
stripped, non-empty URL-bar text: prepend `https://` when the lower-cased
input does not start with `http://` or `https://` and the input contains
a `'.'`. -/
def normalize_user_input (s : String) : String :=
  if startsWithHttpScheme (pyLower s) = false ∧ containsDot s = true then
    "https://" ++ s
  else s

/-- `NavigationTask.run` (browser.py lines 131-148) as the URL string it
emits: the input as-is when it is a valid URL with a non-empty scheme,
otherwise the search URL
`''.join([default_search_engine, default_search_engine_search_path, input])`. -/
def navigation_task_run (engine path : String) (s : String) : String :=
  if qurlIsValid s = true ∧ qurlScheme s ≠ "" then s
  else engine ++ path ++ s

/-- The URL ultimately emitted for a stripped, non-empty URL-bar input:
`on_url_entered`'s rewrite followed by `NavigationTask.run`. -/
def emitted_url (engine path : String) (s : String) : String :=
  navigation_task_run engine path (normalize_user_input s)

/-- A tab of the tab container: its current URL and whether a load is in
flight (`QWebEngineView` handle, display label and event wiring carry no
state the claims mention). -/
structure Tab where
  url : String
  loading : Bool
  deriving DecidableEq

/-- The UI state owned by the `Browser` window: the monotonic navigation
id, the tabs of the tab container, the index of the focused tab, and
whether the window is open. -/
structure BrowserState where
  currentNavigationId : Nat
  tabs : List Tab
  currentIndex : Nat
  windowOpen : Bool
  deriving DecidableEq

/-- A navigation request handed to the worker pool: the (already
rewritten) URL string and the id it was tagged with. -/
structure NavRequest where
  url : String
  navId : Nat
  deriving DecidableEq

/-- `Browser.on_url_entered` (browser.py lines 388-417): strip the URL-bar
text; on empty input return with no state change and no task; otherwise
increment the navigation id, rewrite the input, and start a navigation
task tagged with the new id. -/
def on_url_entered (st : BrowserState) (text : String) :
    BrowserState × Option NavRequest :=
  let user_input := pyStrip text
  if user_input = "" then (st, none)
  else
    let current_id := st.currentNavigationId + 1
    ({ st with currentNavigationId := current_id },
     some ⟨normalize_user_input user_input, current_id⟩)

/-- `Browser.on_navigation_result` (browser.py lines 419-444): a result
whose id differs from the window's current id is dropped with no state
change; otherwise the focused tab (when one exists) has its load stopped
and its URL set. -/
def on_navigation_result (st : BrowserState) (url : String) (navId : Nat) :
    BrowserState :=
  if navId ≠ st.currentNavigationId then st
  else
    match st.tabs[st.currentIndex]? with
    | none => st
    | some _ =>
      { st with tabs := st.tabs.set st.currentIndex { url := url, loading := false } }

/-- `Browser.close_current_tab` (browser.py lines 352-365): with more than
one tab open, remove the tab at the requested index (Qt's `removeTab`
ignores an out-of-range index, as does `List.eraseIdx`); otherwise close
the whole window, leaving the tab container untouched. -/
def close_current_tab (st : BrowserState) (index : Nat) : BrowserState :=
  if st.tabs.length > 1 then { st with tabs := st.tabs.eraseIdx index }
  else { st with windowOpen := false }

/-- `Browser.truncate_title` (browser.py lines 462-467):
`title if len(title) <= max_length else title[:max_length] + '...'`. -/
def truncate_title (title : String) (maxLength : Nat := 15) : String :=
  if title.data.length ≤ maxLength then title
  else ⟨title.data.take maxLength⟩ ++ "..."

/-! ### Helper lemmas -/

theorem qurlScheme_https_prepend (s : String) :
    qurlScheme ("https://" ++ s) = "https" := rfl

theorem qurlIsValid_https_prepend (s : String) :
    qurlIsValid ("https://" ++ s) = true := rfl

theorem qurlIsValid_of_scheme_ne_empty (s : String) (h : qurlScheme s ≠ "") :
    qurlIsValid s = true := by
  cases hd : s.data with
  | nil =>
    exfalso
    apply h
    simp [qurlScheme, hd]
  | cons c cs =>
    simp [qurlIsValid, hd]

theorem emitted_url_of_prepend (engine path s : String)
    (h1 : startsWithHttpScheme (pyLower s) = false) (h2 : containsDot s = true) :
    emitted_url engine path s = "https://" ++ s := by
  unfold emitted_url normalize_user_input
  rw [if_pos ⟨h1, h2⟩]
  unfold navigation_task_run
  rw [if_pos ⟨qurlIsValid_https_prepend s, by rw [qurlScheme_https_prepend]; decide⟩]

theorem emitted_url_of_scheme_as_is (engine path s : String)
    (hs : qurlScheme s ≠ "")
    (h : startsWithHttpScheme (pyLower s) = true ∨ containsDot s = false) :
    emitted_url engine path s = s := by
  unfold emitted_url normalize_user_input
  rw [if_neg (by rcases h with h | h <;> simp [h])]
  unfold navigation_task_run
  rw [if_pos ⟨qurlIsValid_of_scheme_ne_empty s hs, hs⟩]

/-! ### Claim theorems -/

/-- Claim C2: for every input string that does not start with `http://` or
`https://` (case-insensitively) and contains at least one `'.'`, the
normalizer emits exactly the input with `https://` prepended. -/
theorem c2_dot_input_prepends_https (engine path s : String)
    (h1 : startsWithHttpScheme (pyLower s) = false) (h2 : containsDot s = true) :
    emitted_url engine path s = "https://" ++ s :=
  emitted_url_of_prepend engine path s h1 h2

/-- Claim C2, witness: with the default configuration the input
`example.com` yields `https://example.com`. -/
theorem c2_dot_input_prepends_https_witness :
    emitted_url (default_search_engine none) (default_search_engine_search_path none)
      "example.com" = "https://example.com" :=
  (c2_dot_input_prepends_https (default_search_engine none)
    (default_search_engine_search_path none) "example.com"
    (by decide) (by decide)).trans (by decide)

/-- Claim C3: for every input string whose scheme is empty and which
contains no `'.'`, the emitted URL is the configured search engine base
URL, then the configured query path, then the raw input, concatenated in
that order. -/
theorem c3_schemeless_input_builds_search_url (engine path s : String)
    (hscheme : qurlScheme s = "") (hdot : containsDot s = false) :
    emitted_url engine path s = engine ++ path ++ s := by
  unfold emitted_url normalize_user_input
  rw [if_neg (by simp [hdot])]
  unfold navigation_task_run
  rw [if_neg (by simp [hscheme])]

/-- Claim C3, witness: with the default configuration the input `cats`
yields `https://duckduckgo.com/?q=cats`. -/
theorem c3_schemeless_input_builds_search_url_witness :
    emitted_url (default_search_engine none) (default_search_engine_search_path none)
      "cats" = "https://duckduckgo.com/?q=cats" :=
  (c3_schemeless_input_builds_search_url (default_search_engine none)
    (default_search_engine_search_path none) "cats" (by decide) (by decide)).trans
    (by decide)

/-- Claim C4: a navigation result whose id differs from the window's
current navigation id is dropped: `on_navigation_result` leaves the
entire browser state unchanged, so no tab URL is set and no load is
stopped. -/
theorem c4_stale_navigation_result_dropped (st : BrowserState) (url : String)
    (navId : Nat) (h : navId ≠ st.currentNavigationId) :
    on_navigation_result st url navId = st := by
  unfold on_navigation_result
  rw [if_pos h]

/-- Claim C4, witness: a result tagged id 1 arriving while the window is
at id 2 changes nothing. -/
theorem c4_stale_navigation_result_dropped_witness :
    on_navigation_result ⟨2, [⟨"https://a.example", true⟩], 0, true⟩
      "https://b.example" 1 = ⟨2, [⟨"https://a.example", true⟩], 0, true⟩ :=
  c4_stale_navigation_result_dropped ⟨2, [⟨"https://a.example", true⟩], 0, true⟩
    "https://b.example" 1 (by decide)

/-- Claim C5: with more than one tab open, close-tab removes the tab at
the requested index and leaves the window open; with exactly one tab
open it closes the whole window and removes no tab; hence an open window
always holds at least one tab. -/
theorem c5_close_tab_keeps_window_nonempty (st : BrowserState) (index : Nat) :
    (st.tabs.length > 1 →
      (close_current_tab st index).tabs = st.tabs.eraseIdx index ∧
      (close_current_tab st index).windowOpen = st.windowOpen) ∧
    (st.tabs.length = 1 →
      (close_current_tab st index).windowOpen = false ∧
      (close_current_tab st index).tabs = st.tabs) ∧
    (1 ≤ st.tabs.length → (close_current_tab st index).windowOpen = true →
      st.windowOpen = true ∧ 1 ≤ (close_current_tab st index).tabs.length) := by
  by_cases hlen : st.tabs.length > 1
  · have htabs : (close_current_tab st index).tabs = st.tabs.eraseIdx index := by
      unfold close_current_tab
      rw [if_pos hlen]
    have hwin : (close_current_tab st index).windowOpen = st.windowOpen := by
      unfold close_current_tab
      rw [if_pos hlen]
    have hbound : st.tabs.length - 1 ≤ (st.tabs.eraseIdx index).length := by
      by_cases hidx : index < st.tabs.length
      · have h2 := List.length_eraseIdx_add_one hidx
        omega
      · rw [List.eraseIdx_of_length_le (by omega)]
        omega
    refine ⟨fun _ => ⟨htabs, hwin⟩, fun h1 => absurd h1 (by omega),
      fun _ hopen => ⟨hwin ▸ hopen, ?_⟩⟩
    rw [htabs]
    omega
  · have hclose : close_current_tab st index = { st with windowOpen := false } := by
      unfold close_current_tab
      rw [if_neg hlen]
    rw [hclose]
    exact ⟨fun h1 => absurd h1 hlen, fun _ => ⟨rfl, rfl⟩,
      fun _ hopen => absurd hopen (by simp)⟩

/-- Claim C5, witness: closing tab 0 of a two-tab window removes it and
keeps the window open; closing the sole tab of a one-tab window closes
the window and keeps the tab. -/
theorem c5_close_tab_keeps_window_nonempty_witness :
    ((close_current_tab ⟨0, [⟨"a", false⟩, ⟨"b", false⟩], 0, true⟩ 0).tabs =
        List.eraseIdx [⟨"a", false⟩, ⟨"b", false⟩] 0 ∧
      (close_current_tab ⟨0, [⟨"a", false⟩, ⟨"b", false⟩], 0, true⟩ 0).windowOpen = true) ∧
    ((close_current_tab ⟨0, [⟨"a", false⟩], 0, true⟩ 0).windowOpen = false ∧
      (close_current_tab ⟨0, [⟨"a", false⟩], 0, true⟩ 0).tabs = [⟨"a", false⟩]) :=
  ⟨(c5_close_tab_keeps_window_nonempty ⟨0, [⟨"a", false⟩, ⟨"b", false⟩], 0, true⟩ 0).1
      (by decide),
    (c5_close_tab_keeps_window_nonempty ⟨0, [⟨"a", false⟩], 0, true⟩ 0).2.1 (by decide)⟩

/-- Claim C7: a title of at most 15 characters is returned unchanged;
a longer title is truncated to its first 15 characters followed by
`...`. -/
theorem c7_truncate_title_spec (title : String) :
    (title.length ≤ 15 → truncate_title title = title) ∧
    (15 < title.length → truncate_title title = (⟨title.data.take 15⟩ : String) ++ "...") := by
  have hlen : title.length = title.data.length := rfl
  unfold truncate_title
  constructor
  · intro h
    rw [if_pos (by omega)]
  · intro h
    rw [if_neg (by omega)]

/-- Claim C7, witness: the 20-character title `abcdefghijklmnopqrst`
truncates to `abcdefghijklmno...`, and a short title is unchanged. -/
theorem c7_truncate_title_spec_witness :
    truncate_title "abcdefghijklmnopqrst" = "abcdefghijklmno..." ∧
    truncate_title "short" = "short" :=
  ⟨((c7_truncate_title_spec "abcdefghijklmnopqrst").2 (by decide)).trans (by decide),
    (c7_truncate_title_spec "short").1 (by decide)⟩

/-- Claim C8: with the configuration file absent, loading returns an
empty map together with a log entry, and every configured value falls
back to its hardcoded default: search engine base
`https://duckduckgo.com`, query path `/?q=`, favicon path
`browser/assets/icons/favicons/favicon.ico`, and the shortcut keys
`Ctrl+T`, `Ctrl+W`, `Ctrl+Shift+W`. -/
theorem c8_missing_config_falls_back_to_defaults :
    (load_config_from_file none).1 = [] ∧
    (load_config_from_file none).2 ≠ [] ∧
    default_search_engine none = "https://duckduckgo.com" ∧
    default_search_engine_search_path none = "/?q=" ∧
    browser_favicon_path none = "browser/assets/icons/favicons/favicon.ico" ∧
    new_tab_shortcut none = "Ctrl+T" ∧
    close_tab_shortcut none = "Ctrl+W" ∧
    close_browser_shortcut none = "Ctrl+Shift+W" := by
  decide

/-- Claim C10: submitting empty or whitespace-only URL-bar text starts
no navigation task and leaves the whole state, in particular the current
navigation id, unchanged; a non-empty submission increments the id by
one. -/
theorem c10_blank_input_starts_no_navigation (st : BrowserState) (text : String) :
    (pyStrip text = "" → on_url_entered st text = (st, none)) ∧
    (pyStrip text ≠ "" →
      (on_url_entered st text).1.currentNavigationId = st.currentNavigationId + 1 ∧
      (on_url_entered st text).2 ≠ none) := by
  unfold on_url_entered
  constructor
  · intro h
    rw [if_pos h]
  · intro h
    rw [if_neg h]
    exact ⟨rfl, by simp⟩

/-- Claim C10, witness: whitespace-only text changes nothing; the text
`x` increments the navigation id from 5 to 6. -/
theorem c10_blank_input_starts_no_navigation_witness :
    on_url_entered ⟨5, [⟨"a", false⟩], 0, true⟩ "  \t " = (⟨5, [⟨"a", false⟩], 0, true⟩, none) ∧
    (on_url_entered ⟨5, [⟨"a", false⟩], 0, true⟩ "x").1.currentNavigationId = 5 + 1 :=
  ⟨(c10_blank_input_starts_no_navigation ⟨5, [⟨"a", false⟩], 0, true⟩ "  \t ").1 (by decide),
    ((c10_blank_input_starts_no_navigation ⟨5, [⟨"a", false⟩], 0, true⟩ "x").2 (by decide)).1⟩

/-- Claim C1, counterexample: the input `ftp://example.com` parses as a
URL with the non-empty scheme `ftp`, yet the emitted URL is not the
input: line 403 of browser.py prepends `https://` because the input
contains a `'.'` and does not start with `http://` or `https://`. -/
theorem c1_counterexample :
    qurlScheme "ftp://example.com" ≠ "" ∧
    emitted_url (default_search_engine none) (default_search_engine_search_path none)
        "ftp://example.com" ≠ "ftp://example.com" ∧
    emitted_url (default_search_engine none) (default_search_engine_search_path none)
        "ftp://example.com" = "https://ftp://example.com" := by
  decide

/-- Claim C1 as amended: an input that parses as a URL with a non-empty
scheme is emitted as-is only when it starts with `http://` or `https://`
(case-insensitively) or contains no `'.'`; otherwise (a non-http scheme
together with a `'.'`) the emitted URL is the input with `https://`
prepended. -/
theorem c1_scheme_url_used_as_is (engine path s : String)
    (hscheme : qurlScheme s ≠ "") :
    (startsWithHttpScheme (pyLower s) = true ∨ containsDot s = false →
      emitted_url engine path s = s) ∧
    (startsWithHttpScheme (pyLower s) = false ∧ containsDot s = true →
      emitted_url engine path s = "https://" ++ s) :=
  ⟨fun h => emitted_url_of_scheme_as_is engine path s hscheme h,
    fun h => emitted_url_of_prepend engine path s h.1 h.2⟩

/-- Claim C1 (amended), witness: `about:blank` (non-http scheme, no dot)
and `http://example.com` (http scheme prefix) are both emitted as-is. -/
theorem c1_scheme_url_used_as_is_witness :
    emitted_url (default_search_engine none) (default_search_engine_search_path none)
      "about:blank" = "about:blank" ∧
    emitted_url (default_search_engine none) (default_search_engine_search_path none)
      "http://example.com" = "http://example.com" :=
  ⟨(c1_scheme_url_used_as_is (default_search_engine none)
      (default_search_engine_search_path none) "about:blank" (by decide)).1
      (Or.inr (by decide)),
    (c1_scheme_url_used_as_is (default_search_engine none)
      (default_search_engine_search_path none) "http://example.com" (by decide)).1
      (Or.inl (by decide))⟩

/-! ### Config-parser lemmas for claims C6 and C9 -/

theorem loadConfig_foldl_fst_log_irrel (lines : List (List Char))
    (d : List (List Char × List Char)) (lg lg' : List (List Char)) :
    (lines.foldl loadConfigStep (d, lg)).1 = (lines.foldl loadConfigStep (d, lg')).1 := by
  induction lines generalizing d lg lg' with
  | nil => rfl
  | cons x xs ih =>
    rw [List.foldl_cons, List.foldl_cons]
    cases h : classifyLine x with
    | skip =>
      simp only [loadConfigStep, h]
      apply ih
    | malformed =>
      simp only [loadConfigStep, h]
      apply ih
    | entry k v =>
      simp only [loadConfigStep, h]
      apply ih

theorem loadConfig_foldl_log_mem (lines : List (List Char))
    (st : List (List Char × List Char) × List (List Char)) (x : List Char)
    (hx : x ∈ st.2) : x ∈ (lines.foldl loadConfigStep st).2 := by
  induction lines generalizing st with
  | nil => exact hx
  | cons l ls ih =>
    rw [List.foldl_cons]
    apply ih
    unfold loadConfigStep
    cases h : classifyLine l with
    | skip => exact hx
    | malformed => exact List.mem_append_left _ hx
    | entry k v => exact hx

theorem classifyLine_malformed (bad : List Char)
    (hne : pyStripL bad ≠ [])
    (hhash : (pyStripL bad).head? ≠ some '#')
    (hmal : (pyStripL bad).contains '=' = false ∨
      pyStripL (splitEq1 (pyStripL bad)).1 = [] ∨
      pyStripL (splitEq1 (pyStripL bad)).2 = []) :
    classifyLine bad = LineClass.malformed := by
  obtain ⟨c, cs, hd⟩ : ∃ c cs, pyStripL bad = c :: cs := by
    cases h : pyStripL bad with
    | nil => exact absurd h hne
    | cons c cs => exact ⟨c, cs, rfl⟩
  rw [hd] at hhash hmal
  have hc : ¬ c = '#' := by simpa using hhash
  simp only [classifyLine, hd]
  rw [if_neg hc]
  by_cases hcon : (c :: cs).contains '=' = false
  · rw [if_pos hcon]
  · rw [if_neg hcon]
    rcases hmal with h | h | h
    · exact absurd h hcon
    · rw [if_neg (by simp [h])]
    · rw [if_neg (by simp [h])]

/-- Claim C6, counterexample: a comment line such as `# comment` contains
no `'='` after stripping and contributes no entry, yet it is skipped
silently rather than logged (browser.py lines 39-40 skip blank and `#`
lines before the `'='` check that logs). -/
theorem c6_counterexample :
    (pyStripL ("# comment".data)).contains '=' = false ∧
    (load_search_engine_config [("# comment".data)]).2 = [] := by
  decide

/-- Claim C6 as amended: a line that after stripping is non-empty, is not
a `#` comment, and contains no `'='` or has an empty key or value, adds
no entry to the map and is logged, while every other line of the file
contributes exactly as it would without the malformed line. -/
theorem c6_malformed_line_skipped_and_logged (pre post : List (List Char))
    (bad : List Char)
    (hne : pyStripL bad ≠ [])
    (hhash : (pyStripL bad).head? ≠ some '#')
    (hmal : (pyStripL bad).contains '=' = false ∨
      pyStripL (splitEq1 (pyStripL bad)).1 = [] ∨
      pyStripL (splitEq1 (pyStripL bad)).2 = []) :
    (load_search_engine_config (pre ++ bad :: post)).1 =
      (load_search_engine_config (pre ++ post)).1 ∧
    pyStripL bad ∈ (load_search_engine_config (pre ++ bad :: post)).2 := by
  have hcl := classifyLine_malformed bad hne hhash hmal
  unfold load_search_engine_config
  rw [List.foldl_append, List.foldl_append, List.foldl_cons]
  have hstep : loadConfigStep (pre.foldl loadConfigStep ([], [])) bad =
      ((pre.foldl loadConfigStep ([], [])).1,
        (pre.foldl loadConfigStep ([], [])).2 ++ [pyStripL bad]) := by
    unfold loadConfigStep
    rw [hcl]
  rw [hstep]
  constructor
  · exact loadConfig_foldl_fst_log_irrel post (pre.foldl loadConfigStep ([], [])).1
      ((pre.foldl loadConfigStep ([], [])).2 ++ [pyStripL bad])
      (pre.foldl loadConfigStep ([], [])).2
  · exact loadConfig_foldl_log_mem post _ _
      (List.mem_append_right _ (List.mem_singleton_self _))

/-- Claim C6 (amended), witness: in the file `a=b`, `oops`, `c=d`, the
malformed middle line is logged, and the resulting map equals that of
the file without it. -/
theorem c6_malformed_line_skipped_and_logged_witness :
    (load_search_engine_config (["a=b".data] ++ "oops".data :: ["c=d".data])).1 =
      (load_search_engine_config (["a=b".data] ++ ["c=d".data])).1 ∧
    pyStripL ("oops".data) ∈
      (load_search_engine_config (["a=b".data] ++ "oops".data :: ["c=d".data])).2 :=
  c6_malformed_line_skipped_and_logged ["a=b".data] ["c=d".data] ("oops".data)
    (by decide) (by decide) (Or.inl (by decide))

/-! ### Strip and split lemmas for claim C9 -/

theorem dropWhile_append_cons (p : Char → Bool) (a : List Char) (c : Char)
    (b : List Char) (hc : p c = false) :
    (a ++ c :: b).dropWhile p = a.dropWhile p ++ c :: b := by
  induction a with
  | nil => simp [List.dropWhile_cons, hc]
  | cons x xs ih =>
    by_cases hx : p x = true
    · simp [List.dropWhile_cons, hx, ih]
    · simp [List.dropWhile_cons, hx]

theorem pyStripL_sandwich (k v : List Char) :
    pyStripL (k ++ '=' :: v) = lstripL k ++ '=' :: rstripL v := by
  have hne : pyIsSpace '=' = false := by decide
  unfold pyStripL lstripL rstripL
  rw [dropWhile_append_cons pyIsSpace k '=' v hne]
  rw [List.reverse_append, List.reverse_cons, List.append_assoc, List.singleton_append]
  rw [dropWhile_append_cons pyIsSpace v.reverse '=' (k.dropWhile pyIsSpace).reverse hne]
  rw [List.reverse_append, List.reverse_cons, List.append_assoc, List.singleton_append,
    List.reverse_reverse]

theorem strip_fixed_pieces (l : List Char) (h : pyStripL l = l) :
    lstripL l = l ∧ rstripL l = l := by
  have h1 : List.Sublist (lstripL l) l := List.dropWhile_sublist pyIsSpace
  have h2a : List.Sublist ((lstripL l).reverse.dropWhile pyIsSpace) ((lstripL l).reverse) :=
    List.dropWhile_sublist pyIsSpace
  have h2 : List.Sublist (rstripL (lstripL l)) (lstripL l) := by
    unfold rstripL
    simpa using List.Sublist.reverse h2a
  have len1 := List.Sublist.length_le h1
  have len2 := List.Sublist.length_le h2
  have hlen : (rstripL (lstripL l)).length = l.length := by
    have he : rstripL (lstripL l) = pyStripL l := rfl
    rw [he, h]
  have hl1 : (lstripL l).length = l.length := by omega
  have hlfix : lstripL l = l := List.Sublist.eq_of_length h1 hl1
  refine ⟨hlfix, ?_⟩
  have he2 : rstripL l = pyStripL l := by
    unfold pyStripL
    rw [hlfix]
  rw [he2, h]

theorem splitEq1_append (k v : List Char) (hk : ¬ '=' ∈ k) :
    splitEq1 (k ++ '=' :: v) = (k, v) := by
  induction k with
  | nil => simp [splitEq1]
  | cons c cs ih =>
    have hc : ¬ c = '=' := by
      intro hc
      exact hk (hc ▸ List.mem_cons_self c cs)
    have hcs : ¬ '=' ∈ cs := fun hm => hk (List.mem_cons_of_mem c hm)
    rw [List.cons_append]
    simp only [splitEq1, if_neg hc]
    rw [ih hcs]

theorem contains_append_eq_char (a b : List Char) :
    (a ++ '=' :: b).contains '=' = true := by
  induction a with
  | nil => simp
  | cons x xs ih => simp [ih]

/-- Claim C9: config parsing splits at the first `'='` only: for a line
`k=v` whose key part `k` contains no `'='`, the parsed key is the text
before that first `'='` and the parsed value is the entire remainder,
even when the remainder itself contains `'='` characters; the line
contributes exactly the entry `(k, v)`.  (`k` and `v` are taken in
stripped form, since the parser strips both; `k` must be non-empty and
not start the line as a `#` comment.) -/
theorem c9_value_may_contain_equals (k v : List Char)
    (hkeq : ¬ '=' ∈ k) (hks : pyStripL k = k) (hkne : k ≠ [])
    (hkhead : k.head? ≠ some '#')
    (hvs : pyStripL v = v) (hvne : v ≠ []) :
    classifyLine (k ++ '=' :: v) = LineClass.entry k v ∧
    load_search_engine_config [k ++ '=' :: v] = ([(k, v)], []) := by
  obtain ⟨hkl, hkr⟩ := strip_fixed_pieces k hks
  obtain ⟨hvl, hvr⟩ := strip_fixed_pieces v hvs
  have hstrip : pyStripL (k ++ '=' :: v) = k ++ '=' :: v := by
    rw [pyStripL_sandwich, hkl, hvr]
  obtain ⟨c, cs, rfl⟩ : ∃ c cs, k = c :: cs := by
    cases k with
    | nil => exact absurd rfl hkne
    | cons c cs => exact ⟨c, cs, rfl⟩
  have hc : ¬ c = '#' := by simpa using hkhead
  have hcontains : (c :: (cs ++ '=' :: v)).contains '=' = true := by
    rw [← List.cons_append]
    exact contains_append_eq_char (c :: cs) v
  have hsplit : splitEq1 (c :: (cs ++ '=' :: v)) = (c :: cs, v) := by
    rw [← List.cons_append]
    exact splitEq1_append (c :: cs) v hkeq
  have hclass : classifyLine ((c :: cs) ++ '=' :: v) = LineClass.entry (c :: cs) v := by
    have hstrip2 : pyStripL (c :: (cs ++ '=' :: v)) = c :: (cs ++ '=' :: v) := by
      rw [← List.cons_append]
      exact hstrip
    rw [List.cons_append]
    simp only [classifyLine, hstrip2]
    rw [if_neg hc, if_neg (by rw [hcontains]; simp)]
    simp only [hsplit]
    rw [hks, hvs, if_pos ⟨hkne, hvne⟩]
  refine ⟨hclass, ?_⟩
  unfold load_search_engine_config
  rw [List.foldl_cons]
  simp only [List.foldl_nil]
  unfold loadConfigStep
  rw [hclass]
  simp [dictInsert]

/-- Claim C9, witness: the line `path=/?q=x` parses to key `path` and
value `/?q=x`, the value keeping its own `'='`. -/
theorem c9_value_may_contain_equals_witness :
    classifyLine ("path".data ++ '=' :: "/?q=x".data) =
      LineClass.entry ("path".data) ("/?q=x".data) ∧
    load_search_engine_config ["path".data ++ '=' :: "/?q=x".data] =
      ([("path".data, "/?q=x".data)], []) :=
  c9_value_may_contain_equals ("path".data) ("/?q=x".data)
    (by decide) (by decide) (by decide) (by decide) (by decide) (by decide)

end LibreX
